import Mathlib

/-!
Verification development for the pool-client core of meowpowminer.

Shallow embedding of the C++ sources:
  * `PoolManager.cpp` / `PoolManager.h` (pool manager lifecycle, rotate
    algorithm, client event handlers, observers);
  * `Miner.h` (`WorkPackage`, `Solution`, `get_boundary`);
  * `ethash.hpp` (`kEpoch_length`);
  * `CUDAMiner.cpp` (`CUDAMiner::search`, skip-job guard).

Modelling conventions:
  * `h256` values are `Nat` below `2 ^ 256`; the C++ `FixedHash` comparison
    operators compare bytes big-endian-lexicographically, which on the
    numeric reading is exactly the unsigned 256-bit order, so `<` on `Nat`
    is the faithful translation.  `h256()` (all zero bytes) is `0`.
  * `std::optional<T>` is `Option`; `std::optional::value()` on an empty
    optional throws `std::bad_optional_access`, which is modelled by
    propagating `Option.none` (functions that may throw return `Option`
    or pair their result with an `Option String` error slot, since a C++
    exception does not roll back mutations already performed).
  * The asio strand serialises the manager's handlers, so each handler is
    a pure state-to-state function; `p_client->disconnect()` followed by
    the strand running the `onDisconnected` lambda is modelled by
    composing the handler at the point where the C++ blocks for it.
  * Timers are modelled by `Bool` "armed" flags (`async_wait` arms,
    `cancel` disarms); the farm singleton by `Bool` mining/paused flags
    plus a solution-accounting counter.
-/

/-- Protocol family of a pool URI (`ProtocolFamily` in the sources). -/
inductive ProtocolFamily where
  | GETWORK
  | STRATUM
  | SIMULATION
deriving DecidableEq, Repr

/-- A parsed pool connection (`URI`): the fields the pool manager reads.
`uriStr` is what `str()` returns (the canonical connection string). -/
structure URI where
  host : String := ""
  port : Nat := 0
  family : ProtocolFamily := ProtocolFamily.STRATUM
  unrecoverable : Bool := false
  uriStr : String := ""
deriving DecidableEq, Repr

instance : Inhabited URI := ⟨{}⟩

/-- `ethash::kEpoch_length` from `ethash.hpp` (Meowpow epoch length). -/
def kEpoch_length : Nat := 7500

/-- `WorkPackage` from `Miner.h`.  256-bit hashes are `Nat`; the two
optionals mirror `std::optional<uint32_t>` fields. -/
structure WorkPackage where
  job : String := ""
  boundary : Nat := 0
  header : Nat := 0
  seed : Nat := 0
  block_boundary : Nat := 0
  epoch : Option Nat := none
  block : Option Nat := none
  startNonce : Nat := 0
  exSizeBytes : Nat := 0
  algo : String := "meowpow"
deriving DecidableEq, Repr

/-- `WorkPackage::operator bool()`: a package is present iff
`header != h256()`. -/
def WorkPackage.present (wp : WorkPackage) : Bool :=
  wp.header != 0

/-- `WorkPackage::get_boundary()` from `Miner.h`:
```
if (block_boundary == h256{})      return boundary;
else if (boundary < block_boundary) return block_boundary;
else                                return boundary;
``` -/
def WorkPackage.get_boundary (wp : WorkPackage) : Nat :=
  if wp.block_boundary = 0 then wp.boundary
  else if wp.boundary < wp.block_boundary then wp.block_boundary
  else wp.boundary

/-- `Solution` from `Miner.h` (the steady-clock timestamp is kept as a
plain number). -/
structure Solution where
  nonce : Nat := 0
  mixHash : Nat := 0
  work : WorkPackage := {}
  tstamp : Nat := 0
  midx : Nat := 0
deriving DecidableEq, Repr

/-- `PoolSettings` from `PoolManager.h` with its defaulted members. -/
structure PoolSettings where
  connections : List URI := []
  getWorkPollInterval : Nat := 1000
  noWorkTimeout : Nat := 100000
  noResponseTimeout : Nat := 2
  poolFailoverTimeout : Nat := 0
  reportHashrate : Bool := false
  hashRateInterval : Nat := 60
  connectionMaxRetries : Nat := 9000
  benchmarkBlock : Nat := 0
deriving DecidableEq, Repr

/-- State of a `PoolManager` together with the process-wide collaborators
it drives (timers, the `Farm` singleton, the owned client).
`clientPresent` is `p_client != nullptr`, `clientConnected` is
`p_client->isConnected()`; `rotatePosted` counts `rotateConnect` jobs
posted to the strand; `sigtermRaised` records `raise(SIGTERM)`. -/
structure PoolManagerState where
  settings : PoolSettings := {}
  running : Bool := false
  stopping : Bool := false
  async_pending : Bool := false
  connectionAttempt : Nat := 0
  selectedHost : String := ""
  connectionSwitches : Nat := 0
  activeConnectionIdx : Nat := 0
  currentWp : WorkPackage := {}
  epochChanges : Nat := 0
  failoverTimerArmed : Bool := false
  submithrTimerArmed : Bool := false
  clientPresent : Bool := false
  clientConnected : Bool := false
  rotatePosted : Nat := 0
  farmMining : Bool := false
  farmPaused : Bool := false
  accountedSolutions : Nat := 0
  sigtermRaised : Bool := false
deriving DecidableEq, Repr

namespace PoolManager

/-- `PoolManager::PoolManager(PoolSettings)`: stores the settings and sets
`m_currentWp.header = h256()`; the farm solution handler installed here is
modelled by `onSolutionFound` below. -/
def init (settings : PoolSettings) : PoolManagerState :=
  { settings := settings, currentWp := { header := 0 } }

/-- `PoolManager::isRunning()`. -/
def isRunning (s : PoolManagerState) : Bool :=
  s.running

/-- `PoolManager::start()` (PoolManager.cpp):
```
m_running.store(true);  m_async_pending.store(true);
m_connectionSwitches.fetch_add(1);
g_io_service.post(m_io_strand.wrap(bind(&PoolManager::rotateConnect, this)));
```
There is no already-running check: the stores and the increment happen
unconditionally. -/
def start (s : PoolManagerState) : PoolManagerState :=
  { s with
    running := true
    async_pending := true
    connectionSwitches := s.connectionSwitches + 1
    rotatePosted := s.rotatePosted + 1 }

/-- The `onConnected` lambda bound in `PoolManager::setClientHandlers()`.
The display-host refinement (`ActiveEndPoint` appended when the host name
is DNS/Basic) reads the client's resolved socket, which lives outside the
manager; `selectedHost` is therefore left as set by `rotateConnect`.
Everything else follows the lambda line by line: clear `m_currentWp`'s
job and header (the `epoch` optional is untouched), arm the failover
timer iff `m_activeConnectionIdx != 0 && poolFailoverTimeout` (else
cancel it), start or resume the farm, arm the hashrate timer iff
`reportHashrate`, finally clear `m_async_pending`. -/
def onConnectedHandler (s : PoolManagerState) : PoolManagerState :=
  let s := { s with clientConnected := true
                    currentWp := { s.currentWp with job := "", header := 0 } }
  let s :=
    if s.activeConnectionIdx != 0 && s.settings.poolFailoverTimeout != 0 then
      { s with failoverTimerArmed := true }
    else
      { s with failoverTimerArmed := false }
  let s :=
    if !s.farmMining then { s with farmMining := true }
    else if s.farmPaused then { s with farmPaused := false }
    else s
  let s :=
    if s.settings.reportHashrate then { s with submithrTimerArmed := true } else s
  { s with async_pending := false }

/-- The `onDisconnected` lambda bound in `PoolManager::setClientHandlers()`:
unset the client's connection, clear `m_currentWp.header`, cancel both
timers; then, if `m_stopping`, stop the farm and clear `m_running`,
otherwise set `m_async_pending`, pause the farm and post `rotateConnect`. -/
def onDisconnectedHandler (s : PoolManagerState) : PoolManagerState :=
  let s := { s with clientConnected := false
                    currentWp := { s.currentWp with header := 0 }
                    failoverTimerArmed := false
                    submithrTimerArmed := false }
  if s.stopping then
    { s with farmMining := false, running := false }
  else
    { s with async_pending := true
             farmPaused := true
             rotatePosted := s.rotatePosted + 1 }

/-- The `onWorkReceived` lambda bound in `PoolManager::setClientHandlers()`.
Returns `none` when the C++ would throw `std::bad_optional_access`
(reading `m_currentWp.epoch.value()` while empty); otherwise
`some (state, dispatched)` where `dispatched` records whether
`Farm::f().setWork(m_currentWp)` was reached.  The received package is
rejected when it is empty (`!wp`) or has no `block`; a missing `epoch`
is derived as `block / kEpoch_length` (both operands are `uint32_t`, so
plain division, no truncation). -/
def onWorkReceived (s : PoolManagerState) (wp : WorkPackage) :
    Option (PoolManagerState × Bool) :=
  if wp.header = 0 ∨ wp.block = none then
    some (s, false)
  else
    let wp :=
      if wp.epoch.isSome then wp
      else { wp with epoch := some (wp.block.getD 0 / kEpoch_length) }
    let flags : Option (Bool × Bool) :=
      if s.currentWp.header = 0 then some (true, true)
      else do
        let ce ← s.currentWp.epoch
        let we ← wp.epoch
        pure (ce != we, s.currentWp.get_boundary != wp.get_boundary)
    match flags with
    | none => none
    | some (newEpoch, _newDiff) =>
        some
          ({ s with
              currentWp := wp
              epochChanges := s.epochChanges + (if newEpoch then 1 else 0) },
            true)

/-- Outcome of the farm's solution handler: the solution was either handed
to `p_client->submitSolution` or logged as wasted; the lambda has no
other exit, in particular no queueing of the solution for later. -/
inductive SolutionOutcome where
  | submitted
  | wasted
deriving DecidableEq, Repr

/-- The `Farm::onSolutionFound` lambda installed in the `PoolManager`
constructor: pass the solution through iff `p_client && p_client->isConnected()`,
otherwise log it as wasted.  The manager state is returned alongside the
outcome: the lambda touches neither the accounting counters nor any
other manager field. -/
def onSolutionFound (s : PoolManagerState) (_sol : Solution) :
    PoolManagerState × SolutionOutcome :=
  if s.clientPresent && s.clientConnected then
    (s, SolutionOutcome.submitted)
  else
    (s, SolutionOutcome.wasted)

/-- `PoolManager::stop()`.  When a connected client exists the C++ calls
`p_client->disconnect()` and spins until `m_running` turns false; the
only writer of that transition is the `onDisconnected` handler running
on the strand (with `m_stopping` already set), so the blocking wait is
modelled by composing `onDisconnectedHandler` before `p_client = nullptr`.
In the not-connected branch the code cancels both timers and stops the
farm but never stores `false` into `m_running`. -/
def stop (s : PoolManagerState) : PoolManagerState :=
  if s.running then
    let s := { s with async_pending := true, stopping := true }
    if s.clientPresent && s.clientConnected then
      let s := onDisconnectedHandler s
      { s with clientPresent := false }
    else
      let s := { s with failoverTimerArmed := false, submithrTimerArmed := false }
      if s.farmMining then { s with farmMining := false } else s
  else
    s

/-- `boost::iequals` on the connection strings: case-insensitive equality. -/
def iequals (a b : String) : Bool :=
  a.data.map Char.toLower == b.data.map Char.toLower

/-- `PoolManager::setActiveConnectionCommon(unsigned)`.  The result pairs
the post-call state with the message of the exception thrown, if any
(a throw does not undo earlier mutations).  The weak CAS on
`m_async_pending` fails when the flag is already set (`Busy`); on
success the flag is set, and when `idx` differs from the active index
the switch counter, active index and attempt counter are updated and the
client is told to disconnect, else the flag is released again. -/
def setActiveConnectionCommon (s : PoolManagerState) (idx : Nat) :
    PoolManagerState × Option String :=
  if s.async_pending then
    (s, some "Outstanding operations. Retry ...")
  else
    let s := { s with async_pending := true }
    if idx != s.activeConnectionIdx then
      ({ s with
          connectionSwitches := s.connectionSwitches + 1
          activeConnectionIdx := idx
          connectionAttempt := 0
          clientConnected := false },
        none)
    else
      ({ s with async_pending := false }, none)

/-- `PoolManager::setActiveConnection(unsigned idx)`: bounds check first
(`Index out-of bounds.`), then the common path. -/
def setActiveConnectionIdx (s : PoolManagerState) (idx : Nat) :
    PoolManagerState × Option String :=
  if s.settings.connections.length ≤ idx then
    (s, some "Index out-of bounds.")
  else
    setActiveConnectionCommon s idx

/-- `PoolManager::setActiveConnection(std::string&)`: scan the list for a
case-insensitive match, run the common path on the first hit and break;
afterwards `found` — never assigned — is still `false`, so the function
throws `Not found.` whenever the common path did not itself throw. -/
def setActiveConnectionStr (s : PoolManagerState) (connstring : String) :
    PoolManagerState × Option String :=
  match s.settings.connections.findIdx? (fun u => iequals u.uriStr connstring) with
  | some idx =>
      let r := setActiveConnectionCommon s idx
      match r.2 with
      | some err => (r.1, some err)
      | none => (r.1, some "Not found.")
  | none => (s, some "Not found.")

/-- The selection phase of `PoolManager::rotateConnect()` (the code from
the bounds wrap through the retry policy): wrap `m_activeConnectionIdx`
when past the end; if the active endpoint is unrecoverable, erase it,
zero the attempt counter, re-wrap and bump the switch counter; else if
`m_connectionAttempt >= connectionMaxRetries` either just zero the
attempt counter (single-endpoint list: retry forever) or move to the
next index (wrapping), zero the attempt counter and bump the switch
counter.  `List.getD _ _ default` stands for `connections.at(idx)`,
which is in bounds whenever the list is non-empty (the wrap just
ensured the index). -/
def rotateSelect (s : PoolManagerState) : PoolManagerState :=
  let s :=
    if s.settings.connections.length ≤ s.activeConnectionIdx then
      { s with activeConnectionIdx := 0 }
    else s
  if (s.settings.connections.getD s.activeConnectionIdx default).unrecoverable then
    let conns := s.settings.connections.eraseIdx s.activeConnectionIdx
    let s := { s with settings := { s.settings with connections := conns }
                      connectionAttempt := 0 }
    let s :=
      if s.settings.connections.length ≤ s.activeConnectionIdx then
        { s with activeConnectionIdx := 0 }
      else s
    { s with connectionSwitches := s.connectionSwitches + 1 }
  else if s.settings.connectionMaxRetries ≤ s.connectionAttempt then
    if s.settings.connections.length = 1 then
      { s with connectionAttempt := 0 }
    else
      let s := { s with connectionAttempt := 0
                        activeConnectionIdx := s.activeConnectionIdx + 1 }
      let s :=
        if s.settings.connections.length ≤ s.activeConnectionIdx then
          { s with activeConnectionIdx := 0 }
        else s
      { s with connectionSwitches := s.connectionSwitches + 1 }
  else s

/-- `PoolManager::rotateConnect()`.  Early return when a connected client
is still around; otherwise run the selection phase, and then either
construct a fresh client for the selected endpoint (dropping any stale
one), count the attempt, record the selected host and `connect()` —
returned as `some endpoint` — or, when the list is empty or the selected
host is the `exit` sentinel, stop the farm, clear `m_running` and raise
`SIGTERM` (returned as `none`). -/
def rotateConnect (s : PoolManagerState) :
    PoolManagerState × Option URI :=
  if s.clientPresent && s.clientConnected then
    (s, none)
  else
    let s := rotateSelect s
    let u := s.settings.connections.getD s.activeConnectionIdx default
    if s.settings.connections ≠ [] ∧ u.host ≠ "exit" then
      ({ s with
          clientPresent := true
          connectionAttempt := s.connectionAttempt + 1
          selectedHost := u.host ++ ":" ++ toString u.port },
        some u)
    else
      ({ s with farmMining := false, running := false, sigtermRaised := true },
        none)

/-- `PoolManager::getCurrentEpoch()`: `return m_currentWp.epoch.value();`
— an unguarded `value()`, so an empty optional throws
(`none` in the model). -/
def getCurrentEpoch (s : PoolManagerState) : Option Nat :=
  s.currentWp.epoch

/-- `PoolManager::getCurrentDifficulty()`: `0.0` when `!m_currentWp`,
otherwise `dev::getHashesToTarget(m_currentWp.boundary.hex(...))`.
The floating-point conversion helper lives outside the manager, so it is
taken as a parameter mapping the boundary to the difficulty figure. -/
def getCurrentDifficulty (hashesToTarget : Nat → Rat)
    (s : PoolManagerState) : Rat :=
  if !s.currentWp.present then 0
  else hashesToTarget s.currentWp.boundary

/-- `PoolManager::getConnectionSwitches()`. -/
def getConnectionSwitches (s : PoolManagerState) : Nat :=
  s.connectionSwitches

/-- `PoolManager::getEpochChanges()`. -/
def getEpochChanges (s : PoolManagerState) : Nat :=
  s.epochChanges

end PoolManager

/-! ## CUDAMiner::search (CUDAMiner.cpp)

The search routine drives the device through a fixed action vocabulary:
upload the header, upload the target, launch one kernel batch on a
stream, hand a found solution to `Farm::f().submitProof`.  The loop's
interaction with the outside world (the `m_new_work` flag, `paused()`,
`shouldStop()`, and what each stream's result buffer holds once
synchronised) is nondeterministic input, supplied as a finite list of
per-iteration observations. -/

/-- One device/driver action performed by `CUDAMiner::search`. -/
inductive CudaAction where
  | setHeader (header : Nat)
  | setTarget (target : Nat)
  | logSkip
  | launch (kernelIx startNonce : Nat)
  | submit (nonce midx : Nat)
deriving DecidableEq, Repr

/-- Whether the action is a `cuLaunchKernel`. -/
def CudaAction.isLaunch : CudaAction → Bool
  | CudaAction.launch _ _ => true
  | _ => false

/-- Whether the action is a `Farm::submitProof`. -/
def CudaAction.isSubmit : CudaAction → Bool
  | CudaAction.submit _ _ => true
  | _ => false

/-- What one stream's synchronisation observes inside the while loop:
whether `shouldStop()` fired at that point, and the `gid`s sitting in the
stream's `Search_results` buffer (its `count`, clamped by
`MAX_SEARCH_RESULTS`, is the list length). -/
structure StreamObs where
  stopNow : Bool := false
  gids : List Nat := []
deriving DecidableEq, Repr

/-- One iteration of the outer while loop: the `m_new_work` flag and
`paused()` as read at the top, the per-stream observations, and
`shouldStop()` as read at the bottom. -/
structure RoundObs where
  newWork : Bool := false
  pausedNow : Bool := false
  streams : List StreamObs := []
  stopAfter : Bool := false
deriving DecidableEq, Repr

/-- The per-miner state `search` reads: `m_current_target`, the settings'
stream count, the per-stream batch size and the executing kernel slot. -/
structure CudaMinerState where
  currentTarget : Nat := 0
  streams : Nat := 2
  batchSize : Nat := 0
  kernelExecIx : Nat := 0
deriving DecidableEq, Repr

/-- The inner `for` over the streams (one pass of the while-loop body).
With `n` the running `start_nonce` (already advanced past every batch
launched so far) and `sbs = m_streams_batch_size`: synchronise; a
`shouldStop()` hit sets `done`; if not done, relaunch the stream at `n`;
each found gid submits nonce `n - sbs + gid` (the `nonce_base` line);
then `start_nonce += m_batch_size` and the next stream.  Returns the
actions, the advanced nonce and the final `done` flag. -/
def cudaProcessStreams (kernelIx batchSize sbs midx : Nat) :
    List StreamObs → Nat → Bool → List CudaAction × Nat × Bool
  | [], n, done => ([], n, done)
  | o :: rest, n, done =>
      let done := done || o.stopNow
      let relaunch :=
        if done then [] else [CudaAction.launch kernelIx n]
      let submits := o.gids.map (fun gid => CudaAction.submit (n - sbs + gid) midx)
      let (acts, n', done') :=
        cudaProcessStreams kernelIx batchSize sbs midx rest (n + batchSize) done
      (relaunch ++ submits ++ acts, n', done')

/-- The outer `while (!done)` loop of `CUDAMiner::search`, consuming one
`RoundObs` per iteration: read `m_new_work`/`paused()` into `done`,
process every stream, and exit after this round when `shouldStop()` is
observed at the bottom. -/
def cudaSearchRounds (kernelIx batchSize sbs midx : Nat) :
    List RoundObs → Nat → Bool → List CudaAction
  | [], _, _ => []
  | r :: rest, n, done =>
      if done then []
      else
        let done := done || r.newWork || r.pausedNow
        let (acts, n', done') :=
          cudaProcessStreams kernelIx batchSize sbs midx r.streams n done
        if r.stopAfter then acts
        else acts ++ cudaSearchRounds kernelIx batchSize sbs midx rest n' done'

namespace CUDAMiner

/-- `upper64OfBoundary = (uint64_t)(u64)((u256)w.get_boundary() >> 192);`
computed by the worker loop before calling `search`.  For a 256-bit
boundary the shift leaves at most 64 bits, so the cast is the identity
and the whole line is division by `2 ^ 192`. -/
def upper64OfBoundary (wp : WorkPackage) : Nat :=
  wp.get_boundary / 2 ^ 192

/-- `CUDAMiner::search(header, target, start_nonce, w)`: upload the
header; upload the target iff it changed (updating `m_current_target`);
if `target == UINT64_MAX` log and return — *before* priming any stream;
otherwise prime one batch per stream (advancing `start_nonce` by
`m_batch_size` each) and enter the while loop.  Returns the updated
miner state and the action trace. -/
def search (m : CudaMinerState) (header target startNonce midx : Nat)
    (rounds : List RoundObs) : CudaMinerState × List CudaAction :=
  let targetActs :=
    if m.currentTarget != target then [CudaAction.setTarget target] else []
  let m := if m.currentTarget != target then { m with currentTarget := target } else m
  if target = 2 ^ 64 - 1 then
    (m, CudaAction.setHeader header :: targetActs ++ [CudaAction.logSkip])
  else
    let priming :=
      (List.range m.streams).map
        (fun i => CudaAction.launch m.kernelExecIx (startNonce + i * m.batchSize))
    let sbs := m.streams * m.batchSize
    let loopActs :=
      cudaSearchRounds m.kernelExecIx m.batchSize sbs midx rounds (startNonce + sbs) false
    (m, CudaAction.setHeader header :: targetActs ++ priming ++ loopActs)

end CUDAMiner

/-! ## Concrete fixtures -/

/-- A plain stratum endpoint used by the concrete tests. -/
def demoUri : URI :=
  { host := "pool.test", port := 3333, family := ProtocolFamily.STRATUM,
    uriStr := "stratum+tcp://pool.test:3333" }

/-- Settings with the single endpoint `demoUri` and the stock defaults. -/
def demoSettings : PoolSettings :=
  { connections := [demoUri] }

/-- A manager on which `start()` has been called and no client has been
constructed yet (the posted `rotateConnect` has not run). -/
def runningState : PoolManagerState :=
  PoolManager.start (PoolManager.init demoSettings)

/-! ## Claims -/

/-- C2: `WorkPackage::get_boundary()` returns the numeric maximum of
`boundary` and `block_boundary` under the unsigned 256-bit order, and in
particular returns `boundary` when `block_boundary` is zero. -/
theorem get_boundary_is_max (wp : WorkPackage) :
    wp.get_boundary = max wp.boundary wp.block_boundary ∧
    (wp.block_boundary = 0 → wp.get_boundary = wp.boundary) := by
  unfold WorkPackage.get_boundary
  constructor
  · split_ifs <;> omega
  · intro h
    simp [h]

/-- Witness for C2 at a concrete package with an unset `block_boundary`. -/
theorem get_boundary_is_max_witness :
    ({ boundary := 5, block_boundary := 0 : WorkPackage }).block_boundary = 0 ∧
    ({ boundary := 5, block_boundary := 0 : WorkPackage }).get_boundary =
      ({ boundary := 5, block_boundary := 0 : WorkPackage }).boundary :=
  ⟨rfl, (get_boundary_is_max { boundary := 5, block_boundary := 0 }).2 rfl⟩

/-- C8: the farm's solution handler calls `submitSolution` exactly when a
client exists and is connected; in every other case the solution is
wasted, and in all cases the handler leaves the manager state (and so
the accounting and any would-be queue) untouched. -/
theorem onSolutionFound_gating (s : PoolManagerState) (sol : Solution) :
    ((PoolManager.onSolutionFound s sol).2 = PoolManager.SolutionOutcome.submitted ↔
      s.clientPresent = true ∧ s.clientConnected = true) ∧
    ((PoolManager.onSolutionFound s sol).2 = PoolManager.SolutionOutcome.wasted ↔
      ¬(s.clientPresent = true ∧ s.clientConnected = true)) ∧
    (PoolManager.onSolutionFound s sol).1 = s := by
  cases hp : s.clientPresent <;> cases hc : s.clientConnected <;>
    simp [PoolManager.onSolutionFound, hp, hc]

/-- C9: when the 64-bit target handed to `CUDAMiner::search` is
`UINT64_MAX` — i.e. the upper 64 bits of the job's effective boundary
are all ones — the search returns at the skip guard: whatever the
stream observations would have been, the action trace contains no
kernel launch and no solution submission. -/
theorem search_skips_difficulty_one (m : CudaMinerState) (wp : WorkPackage)
    (header startNonce midx : Nat) (rounds : List RoundObs)
    (hb : CUDAMiner.upper64OfBoundary wp = 2 ^ 64 - 1) :
    ((CUDAMiner.search m header (CUDAMiner.upper64OfBoundary wp)
        startNonce midx rounds).2).filter
      (fun a => a.isLaunch || a.isSubmit) = [] := by
  rw [hb]
  cases ht : m.currentTarget != 2 ^ 64 - 1 <;>
    simp [CUDAMiner.search, ht, CudaAction.isLaunch, CudaAction.isSubmit]

/-- A job at difficulty one: effective boundary with all upper bits set. -/
def wpDiffOne : WorkPackage :=
  { boundary := 2 ^ 256 - 1 }

/-- Witness for C9 at the all-ones boundary. -/
theorem search_skips_difficulty_one_witness :
    CUDAMiner.upper64OfBoundary wpDiffOne = 2 ^ 64 - 1 ∧
    ((CUDAMiner.search {} 7 (CUDAMiner.upper64OfBoundary wpDiffOne)
        0 0 []).2).filter (fun a => a.isLaunch || a.isSubmit) = [] :=
  ⟨by decide, search_skips_difficulty_one {} wpDiffOne 7 0 0 [] (by decide)⟩

/-- C10: with no epoch recorded in `m_currentWp` (and the package empty,
as in every state where that can happen: freshly constructed or cleared
by `onConnected` before any work), `getCurrentEpoch()` reads
`epoch.value()` of an empty optional and throws, while
`getCurrentDifficulty()` takes its `!m_currentWp` guard and returns 0. -/
theorem getCurrentEpoch_throws_without_epoch (s : PoolManagerState)
    (hashesToTarget : Nat → Rat)
    (he : s.currentWp.epoch = none) (hh : s.currentWp.header = 0) :
    PoolManager.getCurrentEpoch s = none ∧
    PoolManager.getCurrentDifficulty hashesToTarget s = 0 := by
  constructor
  · exact he
  · simp [PoolManager.getCurrentDifficulty, WorkPackage.present, hh]

/-- The state reached by constructing, starting and connecting before any
work is received: `onConnected` has cleared `m_currentWp`. -/
def connectedNoWorkState : PoolManagerState :=
  PoolManager.onConnectedHandler runningState

/-- Witness for C10 in the connected-before-work state. -/
theorem getCurrentEpoch_throws_without_epoch_witness :
    (connectedNoWorkState.currentWp.epoch = none ∧
      connectedNoWorkState.currentWp.header = 0) ∧
    (PoolManager.getCurrentEpoch connectedNoWorkState = none ∧
      PoolManager.getCurrentDifficulty (fun _ => 1) connectedNoWorkState = 0) :=
  ⟨⟨rfl, rfl⟩,
    getCurrentEpoch_throws_without_epoch connectedNoWorkState (fun _ => 1) rfl rfl⟩

/-- C1 counterexample: `start()` then `stop()` on a manager that never got
a connected client (the posted rotate has not run).  `stop()` takes the
not-connected branch, which cancels the timers and stops the farm but
never clears `m_running`, so `isRunning()` still reports true. -/
theorem stop_not_connected_counterexample :
    runningState.clientConnected = false ∧
    PoolManager.isRunning (PoolManager.stop runningState) = true :=
  ⟨rfl, rfl⟩

/-- C1 (amended): after `stop()` on a running manager both timers are
cancelled; the running flag is cleared when a connected client existed at
the call (the blocking wait observes the `onDisconnected` handler's
store), but remains `true` when no client was connected. -/
theorem stop_cancels_timers (s : PoolManagerState) (h : s.running = true) :
    (PoolManager.stop s).failoverTimerArmed = false ∧
    (PoolManager.stop s).submithrTimerArmed = false ∧
    (s.clientPresent = true → s.clientConnected = true →
      (PoolManager.stop s).running = false ∧
      (PoolManager.stop s).clientPresent = false) ∧
    ((s.clientPresent && s.clientConnected) = false →
      (PoolManager.stop s).running = true) := by
  cases hp : s.clientPresent <;> cases hc : s.clientConnected <;>
    simp [PoolManager.stop, PoolManager.onDisconnectedHandler, h, hp, hc] <;>
    split <;> simp

/-- A running manager with a live, connected client and both timers armed. -/
def connectedState : PoolManagerState :=
  { runningState with
    clientPresent := true, clientConnected := true,
    failoverTimerArmed := true, submithrTimerArmed := true }

/-- Witness for C1 (amended) on the connected fixture. -/
theorem stop_cancels_timers_witness :
    connectedState.running = true ∧
    ((PoolManager.stop connectedState).failoverTimerArmed = false ∧
      (PoolManager.stop connectedState).submithrTimerArmed = false ∧
      (connectedState.clientPresent = true → connectedState.clientConnected = true →
        (PoolManager.stop connectedState).running = false ∧
        (PoolManager.stop connectedState).clientPresent = false) ∧
      ((connectedState.clientPresent && connectedState.clientConnected) = false →
        (PoolManager.stop connectedState).running = true)) :=
  ⟨rfl, stop_cancels_timers connectedState rfl⟩

/-- C3 counterexample: `start()` on an already running manager does not
fail and does not leave the state unchanged — it increments the switch
counter (1 → 2) and posts another rotate. -/
theorem start_again_mutates_counterexample :
    runningState.running = true ∧
    runningState.connectionSwitches = 1 ∧
    (PoolManager.start runningState).connectionSwitches = 2 ∧
    (PoolManager.start runningState).rotatePosted = 2 :=
  ⟨rfl, rfl, rfl, rfl⟩

/-- C3 (amended): `start()` performs no already-running check: from any
state it stores `running` and `async_pending` true, increments
`connection_switches`, posts a rotate, and touches nothing else
(`active_idx`, `attempt_count` and the connection list are preserved). -/
theorem start_unconditionally_restarts (s : PoolManagerState) :
    (PoolManager.start s).running = true ∧
    (PoolManager.start s).async_pending = true ∧
    (PoolManager.start s).connectionSwitches = s.connectionSwitches + 1 ∧
    (PoolManager.start s).rotatePosted = s.rotatePosted + 1 ∧
    (PoolManager.start s).activeConnectionIdx = s.activeConnectionIdx ∧
    (PoolManager.start s).connectionAttempt = s.connectionAttempt ∧
    (PoolManager.start s).settings = s.settings :=
  ⟨rfl, rfl, rfl, rfl, rfl, rfl, rfl⟩

/-- A manager with an outstanding async operation
(`m_async_pending == true`). -/
def pendingState : PoolManagerState :=
  { PoolManager.init demoSettings with async_pending := true }

/-- C4 counterexample: with `async_pending` set, `setActiveConnection(1)`
on a one-element connection list fails with the out-of-bounds error, not
the busy error — the bounds check precedes the CAS. -/
theorem setActiveConnection_busy_counterexample :
    pendingState.async_pending = true ∧
    (PoolManager.setActiveConnectionIdx pendingState 1).2 =
      some "Index out-of bounds." ∧
    "Index out-of bounds." ≠ "Outstanding operations. Retry ..." := by
  refine ⟨rfl, rfl, ?_⟩
  decide

/-- C4 (amended): while `async_pending` is set every
`setActiveConnection(idx)` call fails and leaves the whole state — in
particular `active_idx`, `attempt_count` and `connection_switches` —
untouched; the error is the busy one whenever `idx` is in bounds (an
out-of-range `idx` hits the preceding bounds check instead). -/
theorem setActiveConnection_pending_fails (s : PoolManagerState) (idx : Nat)
    (h : s.async_pending = true) :
    ((PoolManager.setActiveConnectionIdx s idx).2).isSome = true ∧
    (PoolManager.setActiveConnectionIdx s idx).1 = s ∧
    (idx < s.settings.connections.length →
      (PoolManager.setActiveConnectionIdx s idx).2 =
        some "Outstanding operations. Retry ...") := by
  unfold PoolManager.setActiveConnectionIdx PoolManager.setActiveConnectionCommon
  by_cases hb : s.settings.connections.length ≤ idx <;> simp [hb, h]

/-- Witness for C4 (amended) at the in-bounds index 0. -/
theorem setActiveConnection_pending_fails_witness :
    (pendingState.async_pending = true ∧
      0 < pendingState.settings.connections.length) ∧
    (((PoolManager.setActiveConnectionIdx pendingState 0).2).isSome = true ∧
      (PoolManager.setActiveConnectionIdx pendingState 0).1 = pendingState ∧
      (0 < pendingState.settings.connections.length →
        (PoolManager.setActiveConnectionIdx pendingState 0).2 =
          some "Outstanding operations. Retry ...")) :=
  ⟨⟨rfl, by decide⟩, setActiveConnection_pending_fails pendingState 0 rfl⟩

/-- C7: without an outstanding async operation (so that the common path
cannot itself throw busy), `setActiveConnection(connstring)` throws
`Not found.` for every argument — the `found` flag is never assigned, so
even a case-insensitive hit falls through to the throw. -/
theorem setActiveConnectionStr_always_not_found (s : PoolManagerState)
    (connstring : String) (h : s.async_pending = false) :
    (PoolManager.setActiveConnectionStr s connstring).2 = some "Not found." := by
  unfold PoolManager.setActiveConnectionStr
  cases hf : s.settings.connections.findIdx?
      (fun u => PoolManager.iequals u.uriStr connstring) with
  | none => rfl
  | some idx =>
      unfold PoolManager.setActiveConnectionCommon
      simp only [h]
      by_cases hi : idx != s.activeConnectionIdx <;> simp [hi]

/-- Witness for C7: the demo state holds an endpoint whose connection
string matches the argument case-insensitively, and the call still
reports `Not found.`. -/
theorem setActiveConnectionStr_always_not_found_witness :
    ((PoolManager.init demoSettings).async_pending = false ∧
      (PoolManager.init demoSettings).settings.connections.findIdx?
        (fun u => PoolManager.iequals u.uriStr "STRATUM+tcp://pool.TEST:3333") =
        some 0) ∧
    (PoolManager.setActiveConnectionStr (PoolManager.init demoSettings)
        "STRATUM+tcp://pool.TEST:3333").2 = some "Not found." :=
  ⟨⟨rfl, by decide⟩,
    setActiveConnectionStr_always_not_found (PoolManager.init demoSettings)
      "STRATUM+tcp://pool.TEST:3333" rfl⟩

/-- C5: when the retry budget is exhausted and the list holds exactly one
endpoint (not unrecoverable, not the `exit` sentinel), the selection
phase resets `attempt_count` to 0 and `rotateConnect` retries the very
same endpoint at the same index without touching `connection_switches`;
the new attempt is then counted, leaving `attempt_count` at 1. -/
theorem rotateConnect_single_endpoint_retries (s : PoolManagerState) (u : URI)
    (hc : s.settings.connections = [u])
    (hu : u.unrecoverable = false)
    (hx : u.host ≠ "exit")
    (hi : s.activeConnectionIdx = 0)
    (ha : s.settings.connectionMaxRetries ≤ s.connectionAttempt)
    (hcl : s.clientConnected = false) :
    (PoolManager.rotateSelect s).connectionAttempt = 0 ∧
    (PoolManager.rotateConnect s).1.activeConnectionIdx = s.activeConnectionIdx ∧
    (PoolManager.rotateConnect s).1.connectionSwitches = s.connectionSwitches ∧
    (PoolManager.rotateConnect s).2 = some u ∧
    (PoolManager.rotateConnect s).1.connectionAttempt = 1 := by
  have hsel : PoolManager.rotateSelect s = { s with connectionAttempt := 0 } := by
    unfold PoolManager.rotateSelect
    simp [hc, hi, hu, ha]
  refine ⟨by rw [hsel], ?_⟩
  unfold PoolManager.rotateConnect
  rw [hsel]
  simp [hc, hi, hcl, hx]

/-- A single-endpoint manager that has exhausted its retry budget. -/
def maxedRetryState : PoolManagerState :=
  { PoolManager.init { connections := [demoUri], connectionMaxRetries := 3 } with
    connectionAttempt := 3 }

/-- Witness for C5 on the exhausted fixture. -/
theorem rotateConnect_single_endpoint_retries_witness :
    (maxedRetryState.settings.connections = [demoUri] ∧
      demoUri.unrecoverable = false ∧
      demoUri.host ≠ "exit" ∧
      maxedRetryState.activeConnectionIdx = 0 ∧
      maxedRetryState.settings.connectionMaxRetries ≤
        maxedRetryState.connectionAttempt ∧
      maxedRetryState.clientConnected = false) ∧
    ((PoolManager.rotateSelect maxedRetryState).connectionAttempt = 0 ∧
      (PoolManager.rotateConnect maxedRetryState).1.activeConnectionIdx =
        maxedRetryState.activeConnectionIdx ∧
      (PoolManager.rotateConnect maxedRetryState).1.connectionSwitches =
        maxedRetryState.connectionSwitches ∧
      (PoolManager.rotateConnect maxedRetryState).2 = some demoUri ∧
      (PoolManager.rotateConnect maxedRetryState).1.connectionAttempt = 1) :=
  ⟨⟨rfl, rfl, by decide, rfl, by decide, rfl⟩,
    rotateConnect_single_endpoint_retries maxedRetryState demoUri rfl rfl
      (by decide) rfl (by decide) rfl⟩

/-- The state produced by the accept path of `onWorkReceived`: the saved
package and the conditionally bumped `epoch_changes` (proof-local
abbreviation for the existential witnesses below). -/
def workAccept (s : PoolManagerState) (wp : WorkPackage) (newEpoch : Bool) :
    PoolManagerState :=
  { s with currentWp := wp
           epochChanges := s.epochChanges + (if newEpoch then 1 else 0) }

/-- C6: `onWorkReceived` rejects an empty or block-less package leaving
everything untouched and dispatching nothing; otherwise it derives a
missing epoch as `block / 7500`, replaces `m_currentWp`, dispatches
`setWork`, and bumps `epoch_changes` exactly when there was no previous
package or the (derived) epoch differs from the previous one. -/
theorem onWorkReceived_spec (s : PoolManagerState) (wp : WorkPackage) :
    ((wp.header = 0 ∨ wp.block = none) →
      PoolManager.onWorkReceived s wp = some (s, false)) ∧
    (∀ b, wp.header ≠ 0 → wp.block = some b →
      (s.currentWp.header ≠ 0 → s.currentWp.epoch.isSome = true) →
      ∃ s', PoolManager.onWorkReceived s wp = some (s', true) ∧
        s'.currentWp =
          (if wp.epoch.isSome then wp
           else { wp with epoch := some (b / kEpoch_length) }) ∧
        (s'.epochChanges = s.epochChanges + 1 ↔
          (s.currentWp.header = 0 ∨ s.currentWp.epoch ≠ s'.currentWp.epoch)) ∧
        ((s.currentWp.header ≠ 0 ∧ s.currentWp.epoch = s'.currentWp.epoch) →
          s'.epochChanges = s.epochChanges)) := by
  constructor
  · intro h
    unfold PoolManager.onWorkReceived
    simp [h]
  · intro b hh hb hprev
    unfold PoolManager.onWorkReceived
    have hnb : ¬(wp.header = 0 ∨ wp.block = none) := by simp [hh, hb]
    simp only [hnb, if_false]
    by_cases hcw : s.currentWp.header = 0
    · simp only [hcw, if_true]
      refine ⟨_, rfl, ?_, ?_, ?_⟩
      · cases he : wp.epoch <;> simp [he, hb]
      · simp [hcw]
      · intro hfalse
        exact absurd rfl hfalse.1
    · obtain ⟨ce, hce⟩ := Option.isSome_iff_exists.mp (hprev hcw)
      simp only [hcw, if_false]
      cases he : wp.epoch with
      | some e =>
          refine ⟨workAccept s wp (ce != e), ?_, ?_, ?_, ?_⟩
          · simp [workAccept, he, hce]
          · simp [workAccept, he]
          · by_cases hne : ce = e <;> simp [workAccept, he, hce, hcw, hne]
          · intro hsame
            rw [hce] at hsame
            simp [workAccept, he] at hsame
            simp [workAccept, hsame.2]
      | none =>
          refine ⟨workAccept s { wp with epoch := some (b / kEpoch_length) }
              (ce != b / kEpoch_length), ?_, ?_, ?_, ?_⟩
          · simp [workAccept, he, hce, hb]
          · simp [workAccept, he, hb]
          · by_cases hne : ce = b / kEpoch_length <;>
              simp [workAccept, he, hce, hcw, hne]
          · intro hsame
            rw [hce] at hsame
            simp [workAccept] at hsame
            simp [workAccept, hsame.2]

/-- A first work package: header set, block 82500, no epoch given
(so the epoch is derived as 82500 / 7500 = 11). -/
def wpNew : WorkPackage :=
  { header := 17, block := some 82500 }

/-- Witness for C6: a fresh manager receiving `wpNew` dispatches it,
stores the derived epoch and bumps `epoch_changes`. -/
theorem onWorkReceived_spec_witness :
    (wpNew.header ≠ 0 ∧ wpNew.block = some 82500) ∧
    (∃ s', PoolManager.onWorkReceived (PoolManager.init demoSettings) wpNew =
        some (s', true) ∧
      s'.currentWp =
        (if wpNew.epoch.isSome then wpNew
         else { wpNew with epoch := some (82500 / kEpoch_length) }) ∧
      (s'.epochChanges = (PoolManager.init demoSettings).epochChanges + 1 ↔
        ((PoolManager.init demoSettings).currentWp.header = 0 ∨
          (PoolManager.init demoSettings).currentWp.epoch ≠ s'.currentWp.epoch)) ∧
      (((PoolManager.init demoSettings).currentWp.header ≠ 0 ∧
          (PoolManager.init demoSettings).currentWp.epoch = s'.currentWp.epoch) →
        s'.epochChanges = (PoolManager.init demoSettings).epochChanges)) :=
  ⟨⟨by decide, rfl⟩,
    (onWorkReceived_spec (PoolManager.init demoSettings) wpNew).2 82500
      (by decide) rfl (by intro h; exact absurd rfl h)⟩
